import Mathlib

set_option maxRecDepth 8000

/-!
Shallow embedding of the InvoiceAI front-end (src/unnamed/part_000) and
proofs of the specification claims about it.  The file models the
React components' state and handlers as pure Lean functions: component
state becomes structures, event handlers become state transformers,
timers become explicit tick functions fed a list of random draws, and
the single `fetch` call becomes an explicit emitted-request value.

Definitions come first, then the theorems.
-/

/-! ### Upload page: file collection (handleDrop / handleFileSelect)

The JS handlers both run
  `setFiles(prev => [...prev, ...newFiles.slice(0, 100 - prev.length)])`.
`Array.prototype.slice(0, e)` with a possibly negative end index `e`
treats a negative `e` as `length + e` and clamps the result to
`[0, length]`; `jsSliceTo` reproduces that. -/

/-- JS `xs.slice(0, e)` for an `Int` end index `e`: a negative `e` counts
from the end of the array, and the index is clamped to `[0, xs.length]`. -/
def jsSliceTo {α : Type} (xs : List α) (e : Int) : List α :=
  xs.take (if e < 0 then ((xs.length : Int) + e).toNat else e.toNat)

/-- The common body of `handleDrop` and `handleFileSelect`:
`prev ++ newFiles.slice(0, 100 - prev.length)`. -/
def addFiles {α : Type} (prev newFiles : List α) : List α :=
  prev ++ jsSliceTo newFiles (100 - (prev.length : Int))

/-! ### Authentication context (AuthProvider)

`AuthProvider` holds `user : UserRec | null` and `loading : Bool`.
`login(method, data)` sets `loading` true and, when its 1000 ms timer
fires, replaces the user record with a fixed literal whose email is
`data.email || 'user@example.com'` (the JS `||`, under which an empty
string falls back to the default) and clears `loading`.
`logout` just nulls the user. -/

/-- The user record built by `AuthProvider.login`'s timer callback. -/
structure UserRec where
  id : Nat
  email : String
  name : String
  plan : String
  credits : Nat
  /-- `trialEnds` as milliseconds since the epoch (`Date.now() + 14*24*60*60*1000`). -/
  trialEnds : Nat
deriving Repr, DecidableEq

/-- The `data` argument of `login`: only its `email` field is ever read,
and the field may be absent. -/
structure LoginData where
  email : Option String
deriving Repr, DecidableEq

/-- JS `e || d` for a possibly-absent string `e`: the default is used both
when the field is absent and when it is the (falsy) empty string. -/
def jsStringOr (e : Option String) (d : String) : String :=
  match e with
  | some s => if s = "" then d else s
  | none => d

/-- Auth context state: the single in-memory user record and the loading flag. -/
structure AuthState where
  user : Option UserRec
  loading : Bool
deriving Repr, DecidableEq

/-- The user record `login`'s timer callback stores, given the current
time `now` in milliseconds. -/
def loginUserRec (now : Nat) (data : LoginData) : UserRec :=
  { id := 1
    email := jsStringOr data.email "user@example.com"
    name := "John Doe"
    plan := "trial"
    credits := 50
    trialEnds := now + 14 * 24 * 60 * 60 * 1000 }

/-- State of the auth context after `login(method, data)`'s simulated delay
has elapsed: the user is the fixed record and `loading` is cleared.  The
`method` argument is never inspected by the code. -/
def loginFinal (now : Nat) (method : String) (data : LoginData)
    (s : AuthState) : AuthState :=
  { user := some (loginUserRec now data), loading := false }

/-- `logout` nulls the user record. -/
def logoutAuth (s : AuthState) : AuthState :=
  { s with user := none }

/-! ### Upload page: simulated progress (startUpload and its interval)

`startUpload` returns early on an empty file list; otherwise it sets
`isUploading` true, `uploadProgress` 0 and starts a 200 ms interval.
Each interval callback runs
  `prev >= 100 ? (clearInterval; setIsUploading(false); 100)
               : prev + Math.random() * 15`.
Progress is modelled as an exact rational; each `Math.random() * 15`
draw is an explicit rational in `[0, 15)`. -/

/-- State of the upload page relevant to the progress animation. -/
structure UploadState where
  files : List String
  uploadProgress : ℚ
  isUploading : Bool
  /-- whether the `setInterval` timer is still registered -/
  timerActive : Bool
deriving Repr, DecidableEq

/-- `startUpload`: a no-op on an empty file list, otherwise resets the
progress to 0, sets `isUploading` and registers the interval. -/
def startUpload (s : UploadState) : UploadState :=
  if s.files.isEmpty then s
  else { s with uploadProgress := 0, isUploading := true, timerActive := true }

/-- One firing of the interval callback with random draw `r` (the value of
`Math.random() * 15` for this tick).  At `prev ≥ 100` it clears the
interval, stops uploading and pins the progress to 100; otherwise it adds
the unclamped increment. -/
def tick (r : ℚ) (s : UploadState) : UploadState :=
  if ¬ s.timerActive then s
  else if s.uploadProgress ≥ 100 then
    { s with uploadProgress := 100, isUploading := false, timerActive := false }
  else { s with uploadProgress := s.uploadProgress + r }

/-- Run the interval for a list of successive random draws. -/
def runTicks (s : UploadState) (rs : List ℚ) : UploadState :=
  rs.foldl (fun s r => tick r s) s

/-- A legal value of `Math.random() * 15`. -/
def validDraw (r : ℚ) : Prop := 0 ≤ r ∧ r < 15

/-! ### Network requests (the single fetch in AuthModal's GoogleLogin.onSuccess)

A grep of the whole source finds exactly one network call: the `fetch` in
the `GoogleLogin` `onSuccess` handler, a POST to `/api/auth/login` with
JSON body `{ provider: "google", token: credentialResponse.credential }`.
Every handler in the program is modelled as an `Operation`, and
`emittedRequests` lists the HTTP requests each one performs. -/

/-- An HTTP request as issued by `fetch`: method, URL and the two fields of
the JSON body actually sent. -/
structure HttpRequest where
  method : String
  url : String
  bodyProvider : String
  bodyToken : String
deriving Repr, DecidableEq

/-- The request built in `GoogleLogin.onSuccess` for a credential token. -/
def googleLoginRequest (credential : String) : HttpRequest :=
  { method := "POST", url := "/api/auth/login",
    bodyProvider := "google", bodyToken := credential }

/-- Every event handler / operation appearing in the source. -/
inductive Operation where
  /-- `AuthProvider.login(method, data)` (timer-simulated, lines 64–78) -/
  | loginOp (method : String) (data : LoginData)
  /-- `AuthProvider.logout` -/
  | logoutOp
  /-- `AuthModal.handleMagicLink` (timer-simulated, lines 102–111) -/
  | magicLinkOp (email : String)
  /-- `GoogleLogin.onSuccess` with the received credential (lines 141–161) -/
  | googleSuccessOp (credential : String)
  /-- `GoogleLogin.onError` (console.log only) -/
  | googleErrorOp
  /-- `UploadPage.handleDrop` -/
  | handleDropOp (files : List String)
  /-- `UploadPage.handleFileSelect` -/
  | fileSelectOp (files : List String)
  /-- `UploadPage.startUpload` and its interval callback -/
  | startUploadOp
  /-- one firing of the progress interval -/
  | tickOp (r : ℚ)
  /-- `InvoiceAI.handleNavigation(page)` -/
  | navigateOp (page : String)
  /-- `InvoiceAI.handleLogin` (opens the auth modal) -/
  | openModalOp
  /-- the modal's `onClose` -/
  | closeModalOp
  /-- `UploadPage` Clear All button -/
  | clearFilesOp
  /-- `UploadPage` per-file remove button -/
  | removeFileOp (i : Nat)

/-- The HTTP requests each operation performs.  Only the Google sign-in
success handler contains a `fetch`; every other handler in the source is a
pure state update (some behind `setTimeout`/`setInterval`). -/
def emittedRequests : Operation → List HttpRequest
  | .googleSuccessOp credential => [googleLoginRequest credential]
  | _ => []

/-! ### GoogleLogin.onSuccess error handling

The handler body is a `try`/`catch`: on a non-ok response it throws before
calling the context `login` or `onClose`; a thrown `fetch` lands in the
same `catch`, which only calls `console.error`. -/

/-- Outcome of the `fetch` + `res.json()` prefix of the handler. -/
inductive FetchOutcome where
  /-- `res.ok` and the parsed JSON body -/
  | ok (body : LoginData)
  /-- response received with `res.ok` false (`throw new Error("Login failed")`) -/
  | httpError
  /-- the `fetch` itself rejected -/
  | networkThrow
deriving Repr, DecidableEq

/-- What the handler did: whether the context `login` was invoked (and with
which data), whether `onClose` ran, and whether an error was logged. -/
structure HandlerResult where
  loginCalled : Option LoginData
  modalClosed : Bool
  errorLogged : Bool
deriving Repr, DecidableEq

/-- The `GoogleLogin.onSuccess` handler as a function of the fetch outcome:
only the happy path reaches `login(...)` and `onClose()`; both error paths
fall into the `catch` block, which only logs. -/
def googleOnSuccess : FetchOutcome → HandlerResult
  | .ok body => { loginCalled := some body, modalClosed := true, errorLogged := false }
  | .httpError => { loginCalled := none, modalClosed := false, errorLogged := true }
  | .networkThrow => { loginCalled := none, modalClosed := false, errorLogged := true }

/-- The auth context state once the handler and any `login` timer it
started have run: the state is untouched unless the handler invoked the
context `login`, in which case `loginFinal` applies. -/
def authAfterGoogleHandler (now : Nat) (res : HandlerResult)
    (s : AuthState) : AuthState :=
  match res.loginCalled with
  | none => s
  | some d => loginFinal now "google" d s

/-! ### Dashboard invoices

The `Dashboard` component holds `useState([...])` over a literal
three-element array and never calls its setter: the list is the same on
every render, whatever the user or any other state. -/

/-- An element of the dashboard's `invoices` array. -/
structure Invoice where
  id : Nat
  filename : String
  status : String
  uploadedAt : String
  vendor : Option String
  total : Option String
deriving Repr, DecidableEq

/-- The literal `invoices` array in `Dashboard`. -/
def dashboardInvoices : List Invoice :=
  [ { id := 1, filename := "invoice-001.pdf", status := "completed",
      uploadedAt := "2025-08-29T10:30:00Z", vendor := some "ABC Company",
      total := some "$1,250.00" },
    { id := 2, filename := "receipt-002.jpg", status := "processing",
      uploadedAt := "2025-08-29T11:15:00Z", vendor := some "XYZ Corp",
      total := none },
    { id := 3, filename := "bill-003.png", status := "failed",
      uploadedAt := "2025-08-29T09:45:00Z", vendor := none, total := none } ]

/-- The invoice list the `Dashboard` renders, as a function of everything
it could possibly depend on (the auth user and the upload-page state):
`useState`'s initialiser is the literal array and no `setInvoices` exists. -/
def dashboardRenderedInvoices (user : Option UserRec)
    (upload : UploadState) : List Invoice :=
  dashboardInvoices

/-! ### Page selection and the navigation bar

`InvoiceAI`'s render shows the landing page under
`currentPage === 'landing' && !user`, the upload page under
`currentPage === 'upload' && user`, and the dashboard under
`currentPage === 'dashboard' && user`. -/

/-- The three page views. -/
inductive View where
  | landing
  | upload
  | dashboard
deriving Repr, DecidableEq

/-- The set of page views mounted by `InvoiceAI`'s JSX, given the
`currentPage` flag and the auth user. -/
def renderedViews (currentPage : String) (user : Option UserRec) : List View :=
  (if currentPage = "landing" ∧ user = none then [View.landing] else []) ++
  (if currentPage = "upload" ∧ user ≠ none then [View.upload] else []) ++
  (if currentPage = "dashboard" ∧ user ≠ none then [View.dashboard] else [])

/-- What the navigation bar shows when it is rendered at all. -/
structure NavBar where
  hasDashboardButton : Bool
  hasUploadButton : Bool
  creditsShown : Nat
  hasLogoutButton : Bool
deriving Repr, DecidableEq

/-- The `Navigation` component: `if (!user) return null`, otherwise the bar
with the Dashboard and Upload buttons, the `user.credits` display and the
logout button. -/
def navigationRender (user : Option UserRec) : Option NavBar :=
  match user with
  | none => none
  | some u =>
      some { hasDashboardButton := true, hasUploadButton := true,
             creditsShown := u.credits, hasLogoutButton := true }

/-! ### App-level state machine and the landing-page effect

`InvoiceAI` holds `currentPage` (initially `'landing'`) and
`showAuthModal`; the auth user lives in `AuthProvider`.  Its `useEffect`
with dependencies `[user, currentPage]` runs after every state change and
performs `if (user && currentPage === 'landing') setCurrentPage('dashboard')`. -/

/-- Combined state of `InvoiceAI` and the auth context. -/
structure AppState where
  currentPage : String
  user : Option UserRec
  showAuthModal : Bool
deriving Repr, DecidableEq

/-- The `useEffect` body: a signed-in user on the landing page is moved to
the dashboard; in any other state the effect does nothing. -/
def appEffect (s : AppState) : AppState :=
  if s.user.isSome ∧ s.currentPage = "landing" then
    { s with currentPage := "dashboard" }
  else s

/-- The user-driven events that change `InvoiceAI`/auth state. -/
inductive AppEvent where
  /-- `login`'s timer fires and stores the user record -/
  | loginDone (u : UserRec)
  /-- the logout button -/
  | logoutClick
  /-- a `handleNavigation` button in the navigation bar; the bar only
  exists with a user present and only offers `'dashboard'` and `'upload'` -/
  | navClick (page : String)
  /-- `handleLogin` (the Sign In / Start Free Trial buttons) -/
  | openModal
  /-- the auth modal's `onClose` -/
  | closeModal

/-- The raw state update each event performs, before effects run. -/
def applyEvent (s : AppState) (e : AppEvent) : AppState :=
  match e with
  | .loginDone u => { s with user := some u }
  | .logoutClick => { s with user := none }
  | .navClick page =>
      if s.user.isSome ∧ (page = "dashboard" ∨ page = "upload") then
        { s with currentPage := page }
      else s
  | .openModal => { s with showAuthModal := true }
  | .closeModal => { s with showAuthModal := false }

/-- One step of the app: the event's state update followed by the
`useEffect` pass React runs on the re-render. -/
def appStep (s : AppState) (e : AppEvent) : AppState :=
  appEffect (applyEvent s e)

/-- The initial state: `useState('landing')`, no user, modal closed. -/
def initAppState : AppState :=
  { currentPage := "landing", user := none, showAuthModal := false }

/-- The state reached from the initial state by a sequence of events. -/
def reachAppState (events : List AppEvent) : AppState :=
  events.foldl appStep initAppState

/-!
## Theorems

### C1: the 100-file cap on the upload page
-/

theorem length_jsSliceTo {α : Type} (xs : List α) (e : Int) :
    (jsSliceTo xs e).length =
      min (if e < 0 then ((xs.length : Int) + e).toNat else e.toNat) xs.length := by
  simp [jsSliceTo]

theorem addFiles_length {α : Type} (prev newFiles : List α)
    (h : prev.length ≤ 100) :
    (addFiles prev newFiles).length = min 100 (prev.length + newFiles.length) := by
  have hnn : ¬ ((100 : Int) - (prev.length : Int) < 0) := by omega
  simp only [addFiles, List.length_append, length_jsSliceTo, if_neg hnn]
  omega

theorem addFiles_le_100 {α : Type} (prev newFiles : List α)
    (h : prev.length ≤ 100) : (addFiles prev newFiles).length ≤ 100 := by
  rw [addFiles_length prev newFiles h]
  omega

theorem foldl_addFiles_le_100 {α : Type} (prev : List α)
    (h : prev.length ≤ 100) (batches : List (List α)) :
    (batches.foldl addFiles prev).length ≤ 100 := by
  induction batches generalizing prev with
  | nil => simpa using h
  | cons b bs ih =>
      simp only [List.foldl_cons]
      exact ih (addFiles prev b) (addFiles_le_100 prev b h)

/-- C1: the upload page's file collection is capped at 100 entries: from a
current list of length at most 100, `handleDrop`/`handleFileSelect` produce a
list of length `min 100 (current + new)`, and no sequence of drop/select
operations ever pushes the list past 100 entries. -/
theorem upload_files_capped_at_100 {α : Type} (prev : List α)
    (h : prev.length ≤ 100) :
    (∀ newFiles : List α,
        (addFiles prev newFiles).length = min 100 (prev.length + newFiles.length)) ∧
    (∀ batches : List (List α), (batches.foldl addFiles prev).length ≤ 100) := by
  exact ⟨fun newFiles => addFiles_length prev newFiles h,
         fun batches => foldl_addFiles_le_100 prev h batches⟩

/-- Witness for C1: dropping 150 files onto an empty list keeps exactly 100,
and a follow-up batch still cannot push past 100. -/
theorem upload_files_capped_at_100_witness :
    (addFiles ([] : List Nat) (List.replicate 150 0)).length =
      min 100 ((List.replicate (0 : Nat) 0).length + 150) ∧
    ([List.replicate 150 0, List.replicate 7 1].foldl addFiles
        ([] : List Nat)).length ≤ 100 := by
  have h := upload_files_capped_at_100 ([] : List Nat) (by simp)
  exact ⟨by simpa using h.1 (List.replicate 150 0),
         h.2 [List.replicate 150 0, List.replicate 7 1]⟩

/-! ### C2: the simulated login -/

/-- Counterexample to C2 as stated: with `data.email` present but equal to
the empty string, the stored email is the fallback `'user@example.com'`,
not the present value `''` — JS `||` treats the empty string as falsy. -/
theorem login_email_present_counterexample :
    (loginFinal 0 "magic-link" ⟨some ""⟩ ⟨none, true⟩).user.map UserRec.email =
      some "user@example.com" ∧ "user@example.com" ≠ "" := by
  constructor
  · rfl
  · decide

/-- C2 (amended): for every method and data argument, `login` issues no
network request and, after the simulated delay, sets the single in-memory
user record to `{id 1, name 'John Doe', plan 'trial', credits 50, trialEnds
now + 14 days}` with email `data.email` when that field is present and
non-empty and `'user@example.com'` otherwise, and clears the loading flag. -/
theorem login_sets_fixed_user (now : Nat) (method : String) (data : LoginData)
    (s : AuthState) :
    emittedRequests (Operation.loginOp method data) = [] ∧
    ∃ u : UserRec, (loginFinal now method data s).user = some u ∧
      (loginFinal now method data s).loading = false ∧
      u.id = 1 ∧ u.name = "John Doe" ∧ u.plan = "trial" ∧ u.credits = 50 ∧
      u.trialEnds = now + 14 * 24 * 60 * 60 * 1000 ∧
      (∀ e : String, data.email = some e → e ≠ "" → u.email = e) ∧
      ((data.email = none ∨ data.email = some "") → u.email = "user@example.com") := by
  refine ⟨rfl, loginUserRec now data, rfl, rfl, rfl, rfl, rfl, rfl, rfl, ?_, ?_⟩
  · intro e he hne
    simp [loginUserRec, jsStringOr, he, hne]
  · rintro (h | h) <;> simp [loginUserRec, jsStringOr, h]

/-- Witness for C2's amended theorem at a concrete input: logging in at time
5 with email `a@b.c` stores that email with 50 credits and clears loading. -/
theorem login_sets_fixed_user_witness :
    (loginFinal 5 "google" ⟨some "a@b.c"⟩ ⟨none, true⟩).user.map UserRec.email =
      some "a@b.c" ∧ (loginFinal 5 "google" ⟨some "a@b.c"⟩ ⟨none, true⟩).loading = false := by
  obtain ⟨-, u, hu, hl, -, -, -, -, -, hmail, -⟩ :=
    login_sets_fixed_user 5 "google" ⟨some "a@b.c"⟩ ⟨none, true⟩
  refine ⟨?_, hl⟩
  rw [hu]
  simp [hmail "a@b.c" rfl (by decide)]

/-! ### C3 and C8: the random-increment progress timer -/

/-- Counterexample to C3's monotonicity clause: starting the upload with one
file and drawing 14 eight times in a row drives the progress to 112; the
next tick replaces 112 by 100, so the progress strictly decreases across
that tick even though every draw lies in `[0, 15)`. -/
theorem progress_not_monotone_counterexample :
    validDraw 14 ∧ validDraw 0 ∧
    (runTicks (startUpload ⟨["invoice-001.pdf"], 0, false, false⟩)
        (List.replicate 8 14)).uploadProgress = 112 ∧
    (tick 0 (runTicks (startUpload ⟨["invoice-001.pdf"], 0, false, false⟩)
        (List.replicate 8 14))).uploadProgress = 100 ∧
    (100 : ℚ) < 112 := by
  refine ⟨⟨by norm_num, by norm_num⟩, ⟨by norm_num, by norm_num⟩, ?_, ?_, by norm_num⟩
  · norm_num [runTicks, tick, startUpload, List.replicate]
  · norm_num [runTicks, tick, startUpload, List.replicate]

/-- C3 (amended): `startUpload` on a non-empty file list sets progress to 0
and uploading to true; an active tick maps `p` to `p + r` when `p < 100`
and to exactly 100 (stopping the timer and clearing the uploading flag)
when `p ≥ 100`; consequently the clamped value `min p 100` — the fraction
of the bar actually shown — is non-decreasing across ticks, though the raw
value itself can drop from above 100 to exactly 100. -/
theorem upload_progress_random_increment (s : UploadState) (r : ℚ)
    (hr : validDraw r) :
    (¬ s.files.isEmpty →
      (startUpload s).uploadProgress = 0 ∧ (startUpload s).isUploading = true ∧
      (startUpload s).timerActive = true) ∧
    (s.timerActive = true → s.uploadProgress < 100 →
      (tick r s).uploadProgress = s.uploadProgress + r) ∧
    (s.timerActive = true → s.uploadProgress ≥ 100 →
      (tick r s).uploadProgress = 100 ∧ (tick r s).isUploading = false ∧
      (tick r s).timerActive = false) ∧
    min s.uploadProgress 100 ≤ min (tick r s).uploadProgress 100 := by
  obtain ⟨hr0, hr15⟩ := hr
  refine ⟨?_, ?_, ?_, ?_⟩
  · intro hne
    simp only [List.isEmpty_iff] at hne
    simp [startUpload, hne]
  · intro ht hp
    simp [tick, ht, not_le.mpr hp]
  · intro ht hp
    simp [tick, ht, hp]
  · cases hts : s.timerActive with
    | false =>
        have h : tick r s = s := by simp [tick, hts]
        rw [h]
    | true =>
        by_cases hp : s.uploadProgress ≥ 100
        · have h : (tick r s).uploadProgress = 100 := by simp [tick, hts, hp]
          rw [h]
          simpa using min_le_right s.uploadProgress 100
        · have h : (tick r s).uploadProgress = s.uploadProgress + r := by
            simp [tick, hts, hp]
          rw [h]
          exact min_le_min (by linarith) le_rfl

/-- Witness for C3's amended theorem: on a one-file state with the timer
running at progress 0, `startUpload` resets the progress to 0 and a tick
with draw 7 moves the progress to `0 + 7`. -/
theorem upload_progress_random_increment_witness :
    (startUpload ⟨["a.pdf"], 0, true, true⟩).uploadProgress = 0 ∧
    (tick 7 ⟨["a.pdf"], 0, true, true⟩).uploadProgress = 0 + 7 := by
  obtain ⟨hstart, htick, -, -⟩ :=
    upload_progress_random_increment ⟨["a.pdf"], 0, true, true⟩ 7
      ⟨by norm_num, by norm_num⟩
  exact ⟨(hstart (by decide)).1, htick rfl (by norm_num)⟩

/-- C8: the progress step does not clamp its increment: for some sequence of
draws in `[0, 15)` the progress after a tick strictly exceeds 100 while
`isUploading` is still true, and only the following tick replaces the value
by exactly 100 and stops the upload. -/
theorem progress_can_overshoot_100 :
    ∃ rs : List ℚ, ∃ r : ℚ, (∀ x ∈ rs, validDraw x) ∧ validDraw r ∧
      (runTicks (startUpload ⟨["bill-003.png"], 0, false, false⟩) rs).uploadProgress > 100 ∧
      (runTicks (startUpload ⟨["bill-003.png"], 0, false, false⟩) rs).isUploading = true ∧
      (tick r (runTicks (startUpload ⟨["bill-003.png"], 0, false, false⟩) rs)).uploadProgress = 100 ∧
      (tick r (runTicks (startUpload ⟨["bill-003.png"], 0, false, false⟩) rs)).isUploading = false := by
  refine ⟨List.replicate 7 (29/2), 1, ?_, ⟨by norm_num, by norm_num⟩, ?_, ?_, ?_, ?_⟩
  · intro x hx
    rw [List.eq_of_mem_replicate hx]
    exact ⟨by norm_num, by norm_num⟩
  · norm_num [runTicks, tick, startUpload, List.replicate]
  · norm_num [runTicks, tick, startUpload, List.replicate]
  · norm_num [runTicks, tick, startUpload, List.replicate]
  · norm_num [runTicks, tick, startUpload, List.replicate]

/-! ### C4: the only network request -/

/-- C4: the only operation that issues a network request is the Google
sign-in success handler, which sends exactly one POST to `/api/auth/login`
whose body carries provider `"google"` and the credential token; every
other operation performs no network call. -/
theorem only_google_success_fetches (op : Operation) :
    (∀ credential : String, op = .googleSuccessOp credential →
      emittedRequests op = [googleLoginRequest credential] ∧
      (googleLoginRequest credential).method = "POST" ∧
      (googleLoginRequest credential).url = "/api/auth/login" ∧
      (googleLoginRequest credential).bodyProvider = "google" ∧
      (googleLoginRequest credential).bodyToken = credential) ∧
    ((∀ credential : String, op ≠ .googleSuccessOp credential) →
      emittedRequests op = []) := by
  constructor
  · rintro credential rfl
    exact ⟨rfl, rfl, rfl, rfl, rfl⟩
  · intro h
    cases op with
    | googleSuccessOp c => exact absurd rfl (h c)
    | loginOp m d => rfl
    | logoutOp => rfl
    | magicLinkOp e => rfl
    | googleErrorOp => rfl
    | handleDropOp f => rfl
    | fileSelectOp f => rfl
    | startUploadOp => rfl
    | tickOp r => rfl
    | navigateOp p => rfl
    | openModalOp => rfl
    | closeModalOp => rfl
    | clearFilesOp => rfl
    | removeFileOp i => rfl

/-- Witness for C4: the Google success handler on token `"tok"` emits just
the POST to `/api/auth/login`, while `logout` emits nothing. -/
theorem only_google_success_fetches_witness :
    emittedRequests (.googleSuccessOp "tok") = [googleLoginRequest "tok"] ∧
    emittedRequests .logoutOp = [] := by
  refine ⟨((only_google_success_fetches (.googleSuccessOp "tok")).1 "tok" rfl).1, ?_⟩
  exact (only_google_success_fetches .logoutOp).2 (fun c h => by cases h)

/-! ### C9: failed Google login is atomic -/

/-- C9: a failed Google login is atomic: if the POST returns a non-ok
response or the fetch throws, the handler only logs the error, the context
`login` is never invoked, the user record stays as it was (in particular
null stays null), and the auth modal stays open. -/
theorem google_login_failure_atomic (outcome : FetchOutcome)
    (h : outcome = .httpError ∨ outcome = .networkThrow) :
    (googleOnSuccess outcome).loginCalled = none ∧
    (googleOnSuccess outcome).modalClosed = false ∧
    (googleOnSuccess outcome).errorLogged = true ∧
    ∀ (now : Nat) (loading : Bool),
      authAfterGoogleHandler now (googleOnSuccess outcome) ⟨none, loading⟩ =
        ⟨none, loading⟩ := by
  rcases h with h | h <;> subst h <;> exact ⟨rfl, rfl, rfl, fun _ _ => rfl⟩

/-- Witness for C9 at the concrete non-ok-response outcome. -/
theorem google_login_failure_atomic_witness :
    (googleOnSuccess .httpError).loginCalled = none ∧
    (googleOnSuccess .httpError).modalClosed = false := by
  obtain ⟨h1, h2, -, -⟩ := google_login_failure_atomic .httpError (Or.inl rfl)
  exact ⟨h1, h2⟩

/-! ### C5: the static dashboard invoice list -/

/-- C5: the dashboard's invoice list is the fixed three-element literal —
ids 1, 2, 3, filenames `invoice-001.pdf`, `receipt-002.jpg`, `bill-003.png`,
statuses `completed`, `processing`, `failed` — independent of the logged-in
user, prior uploads, or any other state. -/
theorem dashboard_invoices_static (user user' : Option UserRec)
    (upload upload' : UploadState) :
    dashboardRenderedInvoices user upload = dashboardRenderedInvoices user' upload' ∧
    (dashboardRenderedInvoices user upload).map Invoice.id = [1, 2, 3] ∧
    (dashboardRenderedInvoices user upload).map Invoice.filename =
      ["invoice-001.pdf", "receipt-002.jpg", "bill-003.png"] ∧
    (dashboardRenderedInvoices user upload).map Invoice.status =
      ["completed", "processing", "failed"] := by
  exact ⟨rfl, rfl, rfl, rfl⟩

/-! ### C6: page selection -/

theorem landing_rendered_iff (currentPage : String) (user : Option UserRec) :
    View.landing ∈ renderedViews currentPage user ↔
      currentPage = "landing" ∧ user = none := by
  simp only [renderedViews, List.mem_append]
  constructor
  · rintro ((h | h) | h) <;> split_ifs at h <;> simp_all
  · intro h
    left; left
    simp [h]

theorem upload_rendered_iff (currentPage : String) (user : Option UserRec) :
    View.upload ∈ renderedViews currentPage user ↔
      currentPage = "upload" ∧ user ≠ none := by
  simp only [renderedViews, List.mem_append]
  constructor
  · rintro ((h | h) | h) <;> split_ifs at h <;> simp_all
  · intro h
    left; right
    simp [h]

theorem dashboard_rendered_iff (currentPage : String) (user : Option UserRec) :
    View.dashboard ∈ renderedViews currentPage user ↔
      currentPage = "dashboard" ∧ user ≠ none := by
  simp only [renderedViews, List.mem_append]
  constructor
  · rintro ((h | h) | h) <;> split_ifs at h <;> simp_all
  · intro h
    right
    simp [h]

theorem renderedViews_length_le_one (currentPage : String) (user : Option UserRec) :
    (renderedViews currentPage user).length ≤ 1 := by
  unfold renderedViews
  split_ifs <;> simp_all

/-- C6: the landing view is rendered iff `currentPage = 'landing'` and no
user is present, the upload view iff `currentPage = 'upload'` and a user is
present, the dashboard iff `currentPage = 'dashboard'` and a user is
present; at most one of the three views is mounted in any state. -/
theorem page_selection (currentPage : String) (user : Option UserRec) :
    (View.landing ∈ renderedViews currentPage user ↔
      currentPage = "landing" ∧ user = none) ∧
    (View.upload ∈ renderedViews currentPage user ↔
      currentPage = "upload" ∧ user ≠ none) ∧
    (View.dashboard ∈ renderedViews currentPage user ↔
      currentPage = "dashboard" ∧ user ≠ none) ∧
    (renderedViews currentPage user).length ≤ 1 := by
  exact ⟨landing_rendered_iff currentPage user, upload_rendered_iff currentPage user,
         dashboard_rendered_iff currentPage user,
         renderedViews_length_le_one currentPage user⟩

/-! ### C7: the navigation bar -/

/-- C7: the navigation bar renders null exactly when the user record is
null; with a user present it renders the bar with the dashboard and upload
buttons, the user's credits and the logout button. -/
theorem navigation_iff_user (user : Option UserRec) :
    (navigationRender none = none) ∧
    (∀ u : UserRec, user = some u →
      navigationRender user =
        some { hasDashboardButton := true, hasUploadButton := true,
               creditsShown := u.credits, hasLogoutButton := true }) ∧
    (navigationRender user = none ↔ user = none) := by
  refine ⟨rfl, ?_, ?_⟩
  · rintro u rfl
    rfl
  · cases user <;> simp [navigationRender]

/-- Witness for C7: with a 50-credit user the bar is rendered and shows 50
credits; with no user nothing is rendered. -/
theorem navigation_iff_user_witness :
    navigationRender (some (loginUserRec 0 ⟨none⟩)) =
      some { hasDashboardButton := true, hasUploadButton := true,
             creditsShown := 50, hasLogoutButton := true } ∧
    navigationRender none = none := by
  have h := navigation_iff_user (some (loginUserRec 0 ⟨none⟩))
  exact ⟨h.2.1 (loginUserRec 0 ⟨none⟩) rfl, h.1⟩

/-! ### C10: a signed-in user never sees the landing page -/

theorem appEffect_away_from_landing (s : AppState)
    (h : s.user.isSome) (hp : s.currentPage = "landing") :
    (appEffect s).currentPage = "dashboard" := by
  simp [appEffect, h, hp]

theorem reach_user_not_landing (events : List AppEvent) :
    (reachAppState events).user.isSome →
      (reachAppState events).currentPage ≠ "landing" := by
  rw [reachAppState]
  induction events using List.reverseRecOn with
  | nil => intro h; simp [initAppState] at h
  | append_singleton es e ih =>
      intro h
      rw [List.foldl_append, List.foldl_cons, List.foldl_nil] at h ⊢
      set t := applyEvent (es.foldl appStep initAppState) e with ht
      show (appEffect t).currentPage ≠ "landing"
      by_cases hu : t.user.isSome
      · by_cases hp : t.currentPage = "landing"
        · rw [appEffect_away_from_landing t hu hp]
          decide
        · simpa [appEffect, hp] using hp
      · -- without a user the effect is the identity, contradicting the
        -- hypothesis that a user is present afterwards
        exfalso
        rw [show appStep (es.foldl appStep initAppState) e = appEffect t from rfl] at h
        have heq : (appEffect t).user = t.user := by
          simp only [appEffect]
          split_ifs <;> rfl
        rw [heq] at h
        exact hu h

/-- C10: a signed-in user is never shown the landing page: in every state
reachable from the initial state, a non-null user record means the landing
view is not rendered; and whenever a user is present while `currentPage`
is `'landing'`, the `useEffect` moves `currentPage` to `'dashboard'`. -/
theorem user_never_sees_landing (events : List AppEvent) (s : AppState)
    (hreach : s = reachAppState events) (huser : s.user.isSome) :
    View.landing ∉ renderedViews s.currentPage s.user ∧
    (∀ t : AppState, t.user.isSome → t.currentPage = "landing" →
      (appEffect t).currentPage = "dashboard") := by
  constructor
  · intro hmem
    rw [landing_rendered_iff] at hmem
    rw [hreach] at huser hmem
    exact reach_user_not_landing events huser hmem.1
  · exact fun t hu hp => appEffect_away_from_landing t hu hp

/-- Witness for C10: after a completed login from the initial state the
current page is `'dashboard'`, a user is present, and the landing view is
not among the rendered views. -/
theorem user_never_sees_landing_witness :
    (reachAppState [AppEvent.loginDone (loginUserRec 0 ⟨none⟩)]).currentPage =
      "dashboard" ∧
    View.landing ∉
      renderedViews
        (reachAppState [AppEvent.loginDone (loginUserRec 0 ⟨none⟩)]).currentPage
        (reachAppState [AppEvent.loginDone (loginUserRec 0 ⟨none⟩)]).user := by
  refine ⟨by decide, ?_⟩
  exact (user_never_sees_landing [AppEvent.loginDone (loginUserRec 0 ⟨none⟩)]
    (reachAppState [AppEvent.loginDone (loginUserRec 0 ⟨none⟩)]) rfl (by decide)).1
